import Mathlib

/-!
Shallow embedding of the Monochrome browser extension (background
coordinator, popup, content script) and proofs about its per-tab /
global grayscale toggle logic.

Storage (`chrome.storage.local`) is modelled as a record holding the
optional `globalSettings` entry and the per-tab entries `tab_<id>`
(a finitely-readable map `Nat → Option TabState`).  Fallible browser
calls (`chrome.tabs.sendMessage`, `chrome.scripting.executeScript`)
are driven by an explicit success oracle, and every externally visible
action is recorded in an event trace.  JavaScript truthiness of tab
ids (`if (!tabId) return`) is modelled by treating id `0` as falsy.
-/

namespace Monochrome

/-- Mirrors the `TabState` interface of `background.ts`. -/
structure TabState where
  isGrayscale : Bool
deriving DecidableEq, Repr

/-- Mirrors the `GlobalSettings` interface of `background.ts`; the
`globalGrayscaleState?` field is optional in TypeScript, hence `Option`. -/
structure GlobalSettings where
  applyToAllTabs : Bool
  globalGrayscaleState : Option Bool
deriving DecidableEq, Repr

/-- The extension's `chrome.storage.local` contents: the `globalSettings`
key and the per-tab keys `tab_<id>`. -/
structure Storage where
  globalSettings : Option GlobalSettings
  tabEntry : Nat → Option TabState

/-- `chrome.storage.local.set({ [`tab_<id>`]: t })`. -/
def Storage.setTab (s : Storage) (id : Nat) (t : TabState) : Storage :=
  { s with tabEntry := fun j => if j = id then some t else s.tabEntry j }

/-- `chrome.storage.local.remove(`tab_<id>`)`. -/
def Storage.removeTab (s : Storage) (id : Nat) : Storage :=
  { s with tabEntry := fun j => if j = id then none else s.tabEntry j }

/-- Success oracle for the fallible browser calls made on each retry
attempt: `msgOk a` tells whether `chrome.tabs.sendMessage` succeeds on
attempt `a`, `scriptOk a` whether the fallback
`chrome.scripting.executeScript` succeeds on attempt `a`. -/
structure ApplyEnv where
  msgOk : Nat → Bool
  scriptOk : Nat → Bool

/-- Attempt `a` of the retry loop succeeds if the message or the fallback
script injection succeeds. -/
def attemptSucceeds (env : ApplyEnv) (a : Nat) : Bool :=
  env.msgOk a || env.scriptOk a

/-- Externally visible actions of the background script, in order. -/
inductive Event where
  | setTabEntry (tabId : Nat) (isGrayscale : Bool)
  | setGlobalSettings (gs : GlobalSettings)
  | updateIcon (tabId : Nat) (isGrayscale : Bool)
  | sendMessage (tabId : Nat) (isGrayscale : Bool)
  | execScript (tabId : Nat) (isGrayscale : Bool)
  | wait (ms : Nat)
deriving DecidableEq, Repr

/-- Retry loop of `applyGrayscaleToTab` (`background.ts` lines 39-76),
fuelled by the number of remaining attempts; `a` is the 1-based attempt
counter.  Each attempt stores the tab entry and updates the icon, then
tries the message and, on failure, the script injection; a wait of
`d` ms separates consecutive attempts. -/
def applyLoop (t : Nat) (g : Bool) (env : ApplyEnv) (d : Nat) :
    Nat → Nat → Storage → Storage × List Event × Bool
  | _, 0, s => (s, [], false)
  | a, f + 1, s =>
    let s1 := s.setTab t ⟨g⟩
    if env.msgOk a then
      (s1, [Event.setTabEntry t g, Event.updateIcon t g, Event.sendMessage t g], true)
    else if env.scriptOk a then
      (s1, [Event.setTabEntry t g, Event.updateIcon t g, Event.sendMessage t g,
            Event.execScript t g], true)
    else if f = 0 then
      (s1, [Event.setTabEntry t g, Event.updateIcon t g, Event.sendMessage t g,
            Event.execScript t g], false)
    else
      let r := applyLoop t g env d (a + 1) f s1
      (r.1, Event.setTabEntry t g :: Event.updateIcon t g :: Event.sendMessage t g ::
            Event.execScript t g :: Event.wait d :: r.2.1, r.2.2)

/-- `applyGrayscaleToTab` (`background.ts` lines 36-78): returns the new
storage, the event trace, and whether some attempt succeeded.  `if (!tabId)
return` makes tab id 0 a no-op. -/
def applyGrayscaleToTab (tabId : Nat) (isG : Bool) (env : ApplyEnv)
    (retries : Nat) (delay : Nat) (s : Storage) : Storage × List Event × Bool :=
  if tabId = 0 then (s, [], false)
  else applyLoop tabId isG env delay 1 retries s

/-- `applyGrayscaleToAllTabs` (`background.ts` lines 81-97): iterates over
the tab enumeration (each element models `tab.id : number | undefined`)
in order, skipping tabs with falsy ids, and applies the state to each
with the default `retries = 3`, `delay = 200`. -/
def applyGrayscaleToAllTabs (isG : Bool) (env : Nat → ApplyEnv)
    (tabs : List (Option Nat)) (s : Storage) : Storage × List Event :=
  match tabs with
  | [] => (s, [])
  | none :: rest => applyGrayscaleToAllTabs isG env rest s
  | some id :: rest =>
    if id = 0 then applyGrayscaleToAllTabs isG env rest s
    else
      let r := applyGrayscaleToTab id isG (env id) 3 200 s
      let r2 := applyGrayscaleToAllTabs isG env rest r.1
      (r2.1, r.2.1 ++ r2.2)

/-- `toggleGrayscaleForTab` (`background.ts` lines 115-145).  With
`applyToAllTabs` enabled it flips the (optional, `!undefined = true`)
global state, persists it and fans out to all tabs; otherwise it negates
the tab's stored state (missing entry read as `isGrayscale = false`). -/
def toggleGrayscaleForTab (tabId : Nat) (env : Nat → ApplyEnv)
    (tabs : List (Option Nat)) (s : Storage) : Storage × List Event :=
  if tabId = 0 then (s, [])
  else
    let gs := s.globalSettings.getD ⟨false, some false⟩
    if gs.applyToAllTabs then
      let newState := !(gs.globalGrayscaleState.getD false)
      let s1 : Storage := { s with globalSettings := some ⟨true, some newState⟩ }
      let r := applyGrayscaleToAllTabs newState env tabs s1
      (r.1, Event.setGlobalSettings ⟨true, some newState⟩ :: r.2)
    else
      let tabState := (s.tabEntry tabId).getD ⟨false⟩
      let newState := !tabState.isGrayscale
      let r := applyGrayscaleToTab tabId newState (env tabId) 3 200 s
      (r.1, r.2.1)

/-- `chrome.action.onClicked` listener (`background.ts` lines 148-151):
bails out on a falsy tab id, otherwise toggles that tab. -/
def onActionClicked (clickTabId : Option Nat) (env : Nat → ApplyEnv)
    (tabs : List (Option Nat)) (s : Storage) : Storage × List Event :=
  match clickTabId with
  | none => (s, [])
  | some id => if id = 0 then (s, []) else toggleGrayscaleForTab id env tabs s

/-- Active-tab state read of the `updateGlobalSetting` handler
(`background.ts` lines 171-176): `tabs.length > 0 && tabs[0].id` guards
the storage read, falling back to `{ isGrayscale: false }`. -/
def activeTabStateRead (activeTab : Option Nat) (s : Storage) : Bool :=
  match activeTab with
  | some id => if id = 0 then false else ((s.tabEntry id).getD ⟨false⟩).isGrayscale
  | none => false

/-- `updateGlobalSetting` branch of the `chrome.runtime.onMessage`
listener (`background.ts` lines 160-195).  `activeTab` models
`tabs[0]?.id` of the active-tab query. -/
def handleUpdateGlobalSetting (applyToAll : Bool) (activeTab : Option Nat)
    (env : Nat → ApplyEnv) (tabs : List (Option Nat)) (s : Storage) :
    Storage × List Event :=
  if applyToAll then
    let activeState : TabState := ⟨activeTabStateRead activeTab s⟩
    let gs : GlobalSettings := ⟨true, some activeState.isGrayscale⟩
    let s1 : Storage := { s with globalSettings := some gs }
    let r := applyGrayscaleToAllTabs activeState.isGrayscale env tabs s1
    (r.1, Event.setGlobalSettings gs :: r.2)
  else
    let gs : GlobalSettings := ⟨false, none⟩
    ({ s with globalSettings := some gs }, [Event.setGlobalSettings gs])

/-- `chrome.tabs.onRemoved` listener (`background.ts` lines 274-276). -/
def onTabRemoved (tabId : Nat) (s : Storage) : Storage :=
  s.removeTab tabId

/-- Popup checkbox `change` listener (popup script lines 16-27): stores a
`globalSettings` object containing only the `applyToAllTabs` field. -/
def popupCheckboxChange (checked : Bool) (s : Storage) : Storage :=
  { s with globalSettings := some ⟨checked, none⟩ }

/-- Page-side state of the content script: the root element's inline
`filter` and `transition` styles, whether `mutationObserver` is non-null,
and how many observers created by `setupMutationObserver` are currently
live (i.e. not yet disconnected). -/
structure ContentState where
  filter : String
  transition : String
  observer : Bool
  liveObservers : Nat
deriving DecidableEq, Repr

/-- `setupMutationObserver` (content script lines 35-92): a no-op when an
observer is already tracked, otherwise creates and tracks a new one. -/
def setupMutationObserver (st : ContentState) : ContentState :=
  if st.observer then st
  else { st with observer := true, liveObservers := st.liveObservers + 1 }

/-- `disconnectMutationObserver` (content script lines 95-100). -/
def disconnectMutationObserver (st : ContentState) : ContentState :=
  if st.observer then
    { st with observer := false, liveObservers := st.liveObservers - 1 }
  else st

/-- `toggleGrayscale` of the content script (lines 17-32). -/
def toggleGrayscale (enabled : Bool) (st : ContentState) : ContentState :=
  if enabled then
    setupMutationObserver
      { st with filter := "grayscale(100%)", transition := "filter 0.3s ease" }
  else
    disconnectMutationObserver { st with filter := "none" }

/-- `initializeState` of the content script (lines 103-123): reads the
`tab_<id>` entry and calls `toggleGrayscale(true)` only when the stored
state is grayscale.  `tabId` models the (possibly undefined) id returned
by `getCurrentTabId`; `if (!tabId) return` makes 0 falsy. -/
def initializeState (tabId : Option Nat) (s : Storage) (st : ContentState) :
    ContentState :=
  match tabId with
  | none => st
  | some id =>
    if id = 0 then st
    else
      match s.tabEntry id with
      | some t => if t.isGrayscale then toggleGrayscale true st else st
      | none => st

/-- Document of a same-origin iframe reachable through `contentDocument`. -/
structure IframeDoc where
  filter : String
  transition : String
deriving DecidableEq, Repr

/-- What accessing `contentDocument` on an iframe yields: an accessible
same-origin document, `null` (typical cross-origin case), or a thrown
security error. -/
inductive FrameContent where
  | accessible (doc : IframeDoc)
  | nullContent
  | throwing
deriving DecidableEq, Repr

/-- A DOM node as seen by the mutation callback: an iframe element or any
other node. -/
inductive DomNode where
  | iframe (content : FrameContent)
  | other
deriving DecidableEq, Repr

/-- Body of the `try` block in `processAddedIframes` (content script
lines 41-47): non-iframe nodes are ignored, a `null` `contentDocument`
fails the `if` check, an accessible document gets the grayscale filter,
and a throwing access raises. -/
def applyGrayscaleToIframeDoc : DomNode → Except String DomNode
  | DomNode.iframe (FrameContent.accessible _) =>
      Except.ok (DomNode.iframe (FrameContent.accessible
        ⟨"grayscale(100%)", "filter 0.3s ease"⟩))
  | DomNode.iframe FrameContent.nullContent =>
      Except.ok (DomNode.iframe FrameContent.nullContent)
  | DomNode.iframe FrameContent.throwing => Except.error "cross-origin frame access"
  | DomNode.other => Except.ok DomNode.other

/-- `processAddedIframes` (content script lines 39-53): the surrounding
`try`/`catch` absorbs any error, leaving the node untouched. -/
def processAddedIframes (n : DomNode) : DomNode :=
  match applyGrayscaleToIframeDoc n with
  | Except.ok n2 => n2
  | Except.error _ => n

/-- Kinds of DOM mutation records. -/
inductive MutationType where
  | childList
  | attributes
  | characterData
deriving DecidableEq, Repr

/-- A mutation record delivered to the observer callback. -/
structure MutationRec where
  type : MutationType
  addedNodes : List DomNode
deriving DecidableEq, Repr

/-- Handling of one mutation record by the body of the debounced function
(content script lines 56-62): only `childList` mutations have their added
nodes processed. -/
def processMutationRec (m : MutationRec) : MutationRec :=
  if m.type = MutationType.childList then
    { m with addedNodes := m.addedNodes.map processAddedIframes }
  else m

/-- Body of the debounced function over one batch of mutation records
(content script lines 56-62).  This body runs only for batches that
survive the debounce; see `debouncedBatches` and `observerCallbackRun`
for the scheduler that drops superseded batches. -/
def processMutations (ms : List MutationRec) : List MutationRec :=
  ms.map processMutationRec

/-- One invocation of the debounced handler: the batch of mutation
records passed by the observer callback, and the time in ms until the
next invocation (irrelevant for the last one). -/
structure Delivery where
  batch : List MutationRec
  gapAfter : Nat
deriving DecidableEq, Repr

/-- The `debounce` combinator of the content script (lines 5-14) as it
acts on a call sequence: each call clears any pending timeout and
re-schedules the function with its own arguments, so a call followed by
another one within `waitFor` ms is dropped and only the batches whose
timers fire are processed, in order (the last call always fires; a gap
of exactly `waitFor` ms is modelled as the timer firing first). -/
def debouncedBatches (waitFor : Nat) : List Delivery → List (List MutationRec)
  | [] => []
  | [dv] => [dv.batch]
  | dv :: dv2 :: rest =>
    if dv.gapAfter < waitFor then debouncedBatches waitFor (dv2 :: rest)
    else dv.batch :: debouncedBatches waitFor (dv2 :: rest)

/-- The mutation observer callback (content script lines 56-66) across a
sequence of deliveries: the callback hands every batch to the debounced
handler with a 50 ms window, so only the surviving batches are processed
by `processMutations`. -/
def observerCallbackRun (deliveries : List Delivery) : List (List MutationRec) :=
  (debouncedBatches 50 deliveries).map processMutations

/-- Number of retry attempts recorded in a trace (each attempt sends
exactly one message to the content script). -/
def attemptCount (evs : List Event) : Nat :=
  evs.countP fun e => match e with | Event.sendMessage _ _ => true | _ => false

/-- Number of waits recorded in a trace. -/
def waitCount (evs : List Event) : Nat :=
  evs.countP fun e => match e with | Event.wait _ => true | _ => false

theorem setTab_tabEntry_self (s : Storage) (id : Nat) (t : TabState) :
    (s.setTab id t).tabEntry id = some t := by
  simp [Storage.setTab]

theorem setTab_tabEntry_other (s : Storage) (id j : Nat) (t : TabState)
    (h : j ≠ id) : (s.setTab id t).tabEntry j = s.tabEntry j := by
  simp [Storage.setTab, h]

theorem setTab_globalSettings (s : Storage) (id : Nat) (t : TabState) :
    (s.setTab id t).globalSettings = s.globalSettings := rfl

theorem applyLoop_globalSettings (t : Nat) (g : Bool) (env : ApplyEnv) (d : Nat) :
    ∀ fuel a s, (applyLoop t g env d a fuel s).1.globalSettings = s.globalSettings := by
  intro fuel
  induction fuel with
  | zero => intro a s; rfl
  | succ f ih =>
    intro a s
    simp only [applyLoop]
    by_cases h1 : env.msgOk a
    · simp [h1, Storage.setTab]
    · by_cases h2 : env.scriptOk a
      · simp [h1, h2, Storage.setTab]
      · by_cases h3 : f = 0
        · simp [h1, h2, h3, Storage.setTab]
        · simp only [h1, h2, h3, if_false, Bool.false_eq_true, if_neg, ite_false]
          rw [ih]
          rfl

theorem applyLoop_tabEntry_other (t : Nat) (g : Bool) (env : ApplyEnv) (d : Nat)
    (j : Nat) (hj : j ≠ t) :
    ∀ fuel a s, (applyLoop t g env d a fuel s).1.tabEntry j = s.tabEntry j := by
  intro fuel
  induction fuel with
  | zero => intro a s; rfl
  | succ f ih =>
    intro a s
    simp only [applyLoop]
    by_cases h1 : env.msgOk a
    · simp [h1, Storage.setTab, hj]
    · by_cases h2 : env.scriptOk a
      · simp [h1, h2, Storage.setTab, hj]
      · by_cases h3 : f = 0
        · simp [h1, h2, h3, Storage.setTab, hj]
        · simp only [h1, h2, h3, Bool.false_eq_true, if_false, ite_false]
          rw [ih]
          simp [Storage.setTab, hj]

theorem applyLoop_tabEntry_self (t : Nat) (g : Bool) (env : ApplyEnv) (d : Nat) :
    ∀ fuel a s, 1 ≤ fuel →
      (applyLoop t g env d a fuel s).1.tabEntry t = some ⟨g⟩ := by
  intro fuel
  induction fuel with
  | zero => intro a s h; omega
  | succ f ih =>
    intro a s _
    simp only [applyLoop]
    by_cases h1 : env.msgOk a
    · simp [h1, Storage.setTab]
    · by_cases h2 : env.scriptOk a
      · simp [h1, h2, Storage.setTab]
      · by_cases h3 : f = 0
        · simp [h1, h2, h3, Storage.setTab]
        · simp only [h1, h2, h3, Bool.false_eq_true, if_false, ite_false]
          exact ih a.succ _ (by omega)

theorem applyLoop_events_indep (t : Nat) (g : Bool) (env : ApplyEnv) (d : Nat) :
    ∀ fuel a s1 s2, (applyLoop t g env d a fuel s1).2 = (applyLoop t g env d a fuel s2).2 := by
  intro fuel
  induction fuel with
  | zero => intro a s1 s2; rfl
  | succ f ih =>
    intro a s1 s2
    simp only [applyLoop]
    by_cases h1 : env.msgOk a
    · simp [h1]
    · by_cases h2 : env.scriptOk a
      · simp [h1, h2]
      · by_cases h3 : f = 0
        · simp [h1, h2, h3]
        · simp only [h1, h2, h3, Bool.false_eq_true, if_false, ite_false]
          rw [ih a.succ (s1.setTab t ⟨g⟩) (s2.setTab t ⟨g⟩)]

theorem applyGrayscaleToTab_globalSettings (tabId : Nat) (isG : Bool)
    (env : ApplyEnv) (retries delay : Nat) (s : Storage) :
    (applyGrayscaleToTab tabId isG env retries delay s).1.globalSettings =
      s.globalSettings := by
  unfold applyGrayscaleToTab
  by_cases h : tabId = 0
  · simp [h]
  · simp only [h, if_false, ite_false]
    exact applyLoop_globalSettings tabId isG env delay retries 1 s

theorem applyGrayscaleToTab_tabEntry_other (tabId : Nat) (isG : Bool)
    (env : ApplyEnv) (retries delay : Nat) (s : Storage) (j : Nat) (hj : j ≠ tabId) :
    (applyGrayscaleToTab tabId isG env retries delay s).1.tabEntry j =
      s.tabEntry j := by
  unfold applyGrayscaleToTab
  by_cases h : tabId = 0
  · simp [h]
  · simp only [h, if_false, ite_false]
    exact applyLoop_tabEntry_other tabId isG env delay j hj retries 1 s

theorem applyGrayscaleToTab_tabEntry_self (tabId : Nat) (isG : Bool)
    (env : ApplyEnv) (retries delay : Nat) (s : Storage) (h0 : tabId ≠ 0)
    (hr : 1 ≤ retries) :
    (applyGrayscaleToTab tabId isG env retries delay s).1.tabEntry tabId =
      some ⟨isG⟩ := by
  unfold applyGrayscaleToTab
  simp only [h0, if_false, ite_false]
  exact applyLoop_tabEntry_self tabId isG env delay retries 1 s hr

theorem applyGrayscaleToTab_events_indep (tabId : Nat) (isG : Bool)
    (env : ApplyEnv) (retries delay : Nat) (s1 s2 : Storage) :
    (applyGrayscaleToTab tabId isG env retries delay s1).2 =
      (applyGrayscaleToTab tabId isG env retries delay s2).2 := by
  unfold applyGrayscaleToTab
  by_cases h : tabId = 0
  · simp [h]
  · simp only [h, if_false, ite_false]
    exact applyLoop_events_indep tabId isG env delay retries 1 s1 s2

theorem allTabs_globalSettings (g : Bool) (env : Nat → ApplyEnv) :
    ∀ tabs s, (applyGrayscaleToAllTabs g env tabs s).1.globalSettings =
      s.globalSettings := by
  intro tabs
  induction tabs with
  | nil => intro s; rfl
  | cons t rest ih =>
    intro s
    match t with
    | none => exact ih s
    | some id =>
      by_cases h : id = 0
      · simpa [applyGrayscaleToAllTabs, h] using ih s
      · simp only [applyGrayscaleToAllTabs, h, if_false, ite_false]
        rw [ih]
        exact applyGrayscaleToTab_globalSettings id g (env id) 3 200 s

theorem allTabs_tabEntry_pres (g : Bool) (env : Nat → ApplyEnv) (j : Nat) :
    ∀ tabs s, (applyGrayscaleToAllTabs g env tabs s).1.tabEntry j = s.tabEntry j ∨
      (applyGrayscaleToAllTabs g env tabs s).1.tabEntry j = some ⟨g⟩ := by
  intro tabs
  induction tabs with
  | nil => intro s; exact Or.inl rfl
  | cons t rest ih =>
    intro s
    match t with
    | none => exact ih s
    | some id =>
      by_cases h : id = 0
      · simpa [applyGrayscaleToAllTabs, h] using ih s
      · simp only [applyGrayscaleToAllTabs, h, if_false, ite_false]
        by_cases hj : j = id
        · subst hj
          rcases ih (applyGrayscaleToTab j g (env j) 3 200 s).1 with h2 | h2
          · rw [h2, applyGrayscaleToTab_tabEntry_self j g (env j) 3 200 s h (by omega)]
            exact Or.inr rfl
          · exact Or.inr h2
        · rcases ih (applyGrayscaleToTab id g (env id) 3 200 s).1 with h2 | h2
          · rw [h2, applyGrayscaleToTab_tabEntry_other id g (env id) 3 200 s j hj]
            exact Or.inl rfl
          · exact Or.inr h2

theorem allTabs_tabEntry_mem (g : Bool) (env : Nat → ApplyEnv) (j : Nat)
    (hj : j ≠ 0) :
    ∀ tabs s, some j ∈ tabs →
      (applyGrayscaleToAllTabs g env tabs s).1.tabEntry j = some ⟨g⟩ := by
  intro tabs
  induction tabs with
  | nil => intro s hm; cases hm
  | cons t rest ih =>
    intro s hm
    match t with
    | none =>
      have hrest : some j ∈ rest := by
        rcases List.mem_cons.mp hm with heq | h2
        · exact absurd heq (by simp)
        · exact h2
      exact ih s hrest
    | some id =>
      by_cases h : id = 0
      · have hrest : some j ∈ rest := by
          rcases List.mem_cons.mp hm with heq | h2
          · exact absurd (Option.some.inj heq) (by omega)
          · exact h2
        simpa [applyGrayscaleToAllTabs, h] using ih s hrest
      · simp only [applyGrayscaleToAllTabs, h, if_false, ite_false]
        by_cases hji : j = id
        · subst hji
          rcases allTabs_tabEntry_pres g env j rest
              (applyGrayscaleToTab j g (env j) 3 200 s).1 with h2 | h2
          · rw [h2, applyGrayscaleToTab_tabEntry_self j g (env j) 3 200 s hj (by omega)]
          · exact h2
        · have hrest : some j ∈ rest := by
            rcases List.mem_cons.mp hm with heq | h2
            · exact absurd (Option.some.inj heq) hji
            · exact h2
          exact ih (applyGrayscaleToTab id g (env id) 3 200 s).1 hrest

theorem allTabs_events (g : Bool) (env : Nat → ApplyEnv) (s0 : Storage) :
    ∀ tabs s, (applyGrayscaleToAllTabs g env tabs s).2 =
      tabs.flatMap fun t =>
        match t with
        | none => []
        | some id =>
          if id = 0 then []
          else (applyGrayscaleToTab id g (env id) 3 200 s0).2.1 := by
  intro tabs
  induction tabs with
  | nil => intro s; rfl
  | cons t rest ih =>
    intro s
    match t with
    | none => simpa [applyGrayscaleToAllTabs] using ih s
    | some id =>
      by_cases h : id = 0
      · simpa [applyGrayscaleToAllTabs, h] using ih s
      · simp only [applyGrayscaleToAllTabs, h, if_false, ite_false, List.flatMap_cons]
        rw [ih]
        have hev := applyGrayscaleToTab_events_indep id g (env id) 3 200 s s0
        rw [congrArg Prod.fst hev]

theorem applyLoop_trace (t : Nat) (g : Bool) (env : ApplyEnv) (d : Nat) :
    ∀ fuel, 1 ≤ fuel → ∀ a s,
      1 ≤ attemptCount (applyLoop t g env d a fuel s).2.1 ∧
      attemptCount (applyLoop t g env d a fuel s).2.1 ≤ fuel ∧
      waitCount (applyLoop t g env d a fuel s).2.1 + 1 =
        attemptCount (applyLoop t g env d a fuel s).2.1 ∧
      (∀ ms, Event.wait ms ∈ (applyLoop t g env d a fuel s).2.1 → ms = d) ∧
      ((applyLoop t g env d a fuel s).2.2 = true →
        attemptSucceeds env (a + attemptCount (applyLoop t g env d a fuel s).2.1 - 1) =
          true ∧
        ∀ k, a ≤ k → k < a + attemptCount (applyLoop t g env d a fuel s).2.1 - 1 →
          attemptSucceeds env k = false) ∧
      ((applyLoop t g env d a fuel s).2.2 = false →
        attemptCount (applyLoop t g env d a fuel s).2.1 = fuel ∧
        ∀ k, a ≤ k → k < a + fuel → attemptSucceeds env k = false) := by
  intro fuel
  induction fuel with
  | zero => intro h; omega
  | succ f ih =>
    intro _ a s
    by_cases h1 : env.msgOk a
    · refine ⟨?_, ?_, ?_, ?_, ?_, ?_⟩ <;>
        simp [applyLoop, h1, attemptCount, waitCount, attemptSucceeds]
      intro k hk1 hk2
      omega
    · by_cases h2 : env.scriptOk a
      · refine ⟨?_, ?_, ?_, ?_, ?_, ?_⟩ <;>
          simp [applyLoop, h1, h2, attemptCount, waitCount, attemptSucceeds]
        intro k hk1 hk2
        omega
      · by_cases h3 : f = 0
        · subst h3
          refine ⟨?_, ?_, ?_, ?_, ?_, ?_⟩ <;>
            simp [applyLoop, h1, h2, attemptCount, waitCount, attemptSucceeds]
          intro k hk1 hk2
          have : k = a := by omega
          subst this
          simp [h1, h2]
        · obtain ⟨ih1, ih2, ih3, ih4, ih5, ih6⟩ := ih (by omega) (a + 1) (s.setTab t ⟨g⟩)
          have hunfold :
              applyLoop t g env d a (f + 1) s =
                ((applyLoop t g env d (a + 1) f (s.setTab t ⟨g⟩)).1,
                 Event.setTabEntry t g :: Event.updateIcon t g :: Event.sendMessage t g ::
                   Event.execScript t g :: Event.wait d ::
                   (applyLoop t g env d (a + 1) f (s.setTab t ⟨g⟩)).2.1,
                 (applyLoop t g env d (a + 1) f (s.setTab t ⟨g⟩)).2.2) := by
            simp [applyLoop, h1, h2, h3]
          rw [hunfold]
          have hcnt : attemptCount
              (Event.setTabEntry t g :: Event.updateIcon t g :: Event.sendMessage t g ::
                Event.execScript t g :: Event.wait d ::
                (applyLoop t g env d (a + 1) f (s.setTab t ⟨g⟩)).2.1) =
              attemptCount (applyLoop t g env d (a + 1) f (s.setTab t ⟨g⟩)).2.1 + 1 := by
            simp [attemptCount, List.countP_cons]
          have hwait : waitCount
              (Event.setTabEntry t g :: Event.updateIcon t g :: Event.sendMessage t g ::
                Event.execScript t g :: Event.wait d ::
                (applyLoop t g env d (a + 1) f (s.setTab t ⟨g⟩)).2.1) =
              waitCount (applyLoop t g env d (a + 1) f (s.setTab t ⟨g⟩)).2.1 + 1 := by
            simp [waitCount, List.countP_cons]
          refine ⟨?_, ?_, ?_, ?_, ?_, ?_⟩
          · rw [hcnt]; omega
          · rw [hcnt]; omega
          · rw [hcnt, hwait]; omega
          · intro ms hms
            simp only [List.mem_cons] at hms
            rcases hms with h | h | h | h | h | h
            · cases h
            · cases h
            · cases h
            · cases h
            · exact (Event.wait.inj h)
            · exact ih4 ms h
          · intro hok
            rw [hcnt]
            obtain ⟨hs1, hs2⟩ := ih5 hok
            constructor
            · have harith : a + (attemptCount
                  (applyLoop t g env d (a + 1) f (s.setTab t ⟨g⟩)).2.1 + 1) - 1 =
                  a + 1 + attemptCount
                    (applyLoop t g env d (a + 1) f (s.setTab t ⟨g⟩)).2.1 - 1 := by
                omega
              rw [harith]
              exact hs1
            · intro k hk1 hk2
              by_cases hka : k = a
              · subst hka
                simp [attemptSucceeds, h1, h2]
              · exact hs2 k (by omega) (by omega)
          · intro hfail
            rw [hcnt]
            obtain ⟨hs1, hs2⟩ := ih6 hfail
            constructor
            · omega
            · intro k hk1 hk2
              by_cases hka : k = a
              · subst hka
                simp [attemptSucceeds, h1, h2]
              · exact hs2 k (by omega) (by omega)

/-- C10: when a tab with id N is closed, the background removes exactly
the storage key `tab_N`; the `globalSettings` record and every other
tab's stored entry are unchanged by the removal handler. -/
theorem tab_removed_cleans_only_own_key (N j : Nat) (s : Storage) (h : j ≠ N) :
    (onTabRemoved N s).tabEntry N = none ∧
    (onTabRemoved N s).tabEntry j = s.tabEntry j ∧
    (onTabRemoved N s).globalSettings = s.globalSettings := by
  refine ⟨?_, ?_, rfl⟩ <;> simp [onTabRemoved, Storage.removeTab, h]

/-- Witness for C10 at tab 4 with an unrelated entry for tab 7. -/
theorem tab_removed_cleans_only_own_key_witness :
    (onTabRemoved 4 ⟨none, fun j => if j = 7 then some ⟨true⟩ else none⟩).tabEntry 4 =
      none ∧
    (onTabRemoved 4 ⟨none, fun j => if j = 7 then some ⟨true⟩ else none⟩).tabEntry 7 =
      some ⟨true⟩ ∧
    (onTabRemoved 4 ⟨none, fun j => if j = 7 then some ⟨true⟩ else none⟩).globalSettings =
      none :=
  tab_removed_cleans_only_own_key 4 7
    ⟨none, fun j => if j = 7 then some ⟨true⟩ else none⟩ (by decide)

/-- C8: a popup checkbox change overwrites the whole `globalSettings`
record with an object holding only the `applyToAllTabs` field, erasing
any stored `globalGrayscaleState`; the background's disable branch
does the same. -/
theorem checkbox_change_overwrites_global_settings (checked : Bool)
    (activeTab : Option Nat) (env : Nat → ApplyEnv) (tabs : List (Option Nat))
    (s : Storage) :
    (popupCheckboxChange checked s).globalSettings = some ⟨checked, none⟩ ∧
    (handleUpdateGlobalSetting false activeTab env tabs s).1.globalSettings =
      some ⟨false, none⟩ :=
  ⟨rfl, rfl⟩

/-- C5 counterexample: with `tab_5` stored as `isGrayscale = false`, the
content script's load-time initialisation leaves the root filter
untouched (here the empty initial style), whereas removing the effect
would set it to "none" as `toggleGrayscale(false)` does. -/
theorem initialize_state_no_removal_counterexample :
    (⟨none, fun j => if j = 5 then some ⟨false⟩ else none⟩ : Storage).tabEntry 5 =
      some ⟨false⟩ ∧
    (toggleGrayscale false ⟨"", "", false, 0⟩).filter = "none" ∧
    (initializeState (some 5) ⟨none, fun j => if j = 5 then some ⟨false⟩ else none⟩
      ⟨"", "", false, 0⟩).filter ≠ "none" := by
  refine ⟨rfl, rfl, ?_⟩
  decide

/-- C5 (amended): on page load the content script applies the grayscale
effect when the stored `isGrayscale` is true; when the entry is absent
or stored false it leaves the page exactly as it was (no removal is
performed). -/
theorem initialize_state_applies_only_when_true (id : Nat) (s : Storage)
    (st : ContentState) (h0 : id ≠ 0) :
    (s.tabEntry id = some ⟨true⟩ →
      initializeState (some id) s st = toggleGrayscale true st) ∧
    (((s.tabEntry id).getD ⟨false⟩).isGrayscale = false →
      initializeState (some id) s st = st) := by
  constructor
  · intro h
    simp [initializeState, h0, h]
  · intro h
    unfold initializeState
    simp only [h0, if_false, ite_false]
    cases hE : s.tabEntry id with
    | none => rfl
    | some t =>
      rw [hE] at h
      simp only [Option.getD_some] at h
      simp [h]

/-- Witness for C5's amended theorem: a stored true entry makes the
load-time initialisation behave as `toggleGrayscale(true)`. -/
theorem initialize_state_applies_only_when_true_witness :
    initializeState (some 5) ⟨none, fun j => if j = 5 then some ⟨true⟩ else none⟩
        ⟨"", "", false, 0⟩ =
      toggleGrayscale true ⟨"", "", false, 0⟩ :=
  (initialize_state_applies_only_when_true 5
    ⟨none, fun j => if j = 5 then some ⟨true⟩ else none⟩
    ⟨"", "", false, 0⟩ (by decide)).1 (by decide)

theorem toggleGrayscale_observer (b : Bool) (st : ContentState) :
    (toggleGrayscale b st).observer = b := by
  cases b <;>
    simp [toggleGrayscale, setupMutationObserver, disconnectMutationObserver] <;>
    split <;> simp_all

theorem toggleGrayscale_live_inv (b : Bool) (st : ContentState)
    (h : st.liveObservers = if st.observer then 1 else 0) :
    (toggleGrayscale b st).liveObservers =
      if (toggleGrayscale b st).observer then 1 else 0 := by
  cases b <;> cases hob : st.observer <;>
    simp_all [toggleGrayscale, setupMutationObserver, disconnectMutationObserver]

theorem foldToggle_live_inv (calls : List Bool) :
    ∀ st : ContentState, st.liveObservers = (if st.observer then 1 else 0) →
      (calls.foldl (fun acc b => toggleGrayscale b acc) st).liveObservers =
        if (calls.foldl (fun acc b => toggleGrayscale b acc) st).observer then 1
        else 0 := by
  induction calls with
  | nil => intro st h; exact h
  | cons b rest ih =>
    intro st h
    exact ih (toggleGrayscale b st) (toggleGrayscale_live_inv b st h)

theorem foldToggle_observer_last (calls : List Bool) :
    ∀ st : ContentState, calls ≠ [] →
      (calls.foldl (fun acc b => toggleGrayscale b acc) st).observer =
        calls.getLastD false := by
  induction calls with
  | nil => intro st h; exact absurd rfl h
  | cons b rest ih =>
    intro st _
    cases rest with
    | nil => simpa using toggleGrayscale_observer b st
    | cons c rest2 =>
      have h2 := ih (toggleGrayscale b st) (by simp)
      simpa [List.getLastD] using h2

/-- C9: after any finite nonempty sequence of content-script toggles the
mutation observer is tracked iff the most recent call enabled grayscale,
disabling always clears the observer, and at most one observer created by
`setupMutationObserver` is ever live (enabling never creates a second). -/
theorem observer_iff_last_enabled (calls : List Bool) (st : ContentState)
    (hinv : st.liveObservers = if st.observer then 1 else 0)
    (hne : calls ≠ []) :
    (calls.foldl (fun acc b => toggleGrayscale b acc) st).observer =
      calls.getLastD false ∧
    (calls.foldl (fun acc b => toggleGrayscale b acc) st).liveObservers ≤ 1 ∧
    (calls.foldl (fun acc b => toggleGrayscale b acc) st).liveObservers =
      if (calls.foldl (fun acc b => toggleGrayscale b acc) st).observer then 1
      else 0 := by
  refine ⟨foldToggle_observer_last calls st hne, ?_, foldToggle_live_inv calls st hinv⟩
  rw [foldToggle_live_inv calls st hinv]
  split <;> omega

/-- Witness for C9 on the call sequence enable, enable, disable, enable
from a freshly loaded page. -/
theorem observer_iff_last_enabled_witness :
    ([true, true, false, true].foldl (fun acc b => toggleGrayscale b acc)
      ⟨"", "", false, 0⟩).observer = [true, true, false, true].getLastD false ∧
    ([true, true, false, true].foldl (fun acc b => toggleGrayscale b acc)
      ⟨"", "", false, 0⟩).liveObservers ≤ 1 ∧
    ([true, true, false, true].foldl (fun acc b => toggleGrayscale b acc)
      ⟨"", "", false, 0⟩).liveObservers =
      if ([true, true, false, true].foldl (fun acc b => toggleGrayscale b acc)
        ⟨"", "", false, 0⟩).observer then 1 else 0 :=
  observer_iff_last_enabled [true, true, false, true] ⟨"", "", false, 0⟩
    (by decide) (by decide)

theorem debouncedBatches_last (w : Nat) :
    ∀ dls : List Delivery, dls ≠ [] → ∀ dflt : Delivery,
      (dls.getLastD dflt).batch ∈ debouncedBatches w dls := by
  intro dls
  induction dls with
  | nil => intro h; exact absurd rfl h
  | cons dv rest ih =>
    intro _ dflt
    cases rest with
    | nil => simp [debouncedBatches]
    | cons dv2 rest2 =>
      have hmem := ih (by simp) dv
      rw [List.getLastD_cons]
      simp only [debouncedBatches]
      split
      · exact hmem
      · exact List.mem_cons_of_mem _ hmem

/-- C7 counterexample: two deliveries 10 ms apart (within the 50 ms
debounce window) make the debounced handler drop the first batch, so the
dynamically inserted same-origin iframe it contains is never given the
grayscale filter — only the second batch is processed; the same lone
delivery on its own would have been processed. -/
theorem iframe_mutation_debounce_counterexample :
    observerCallbackRun
        [⟨[⟨MutationType.childList,
            [DomNode.iframe (FrameContent.accessible ⟨"", ""⟩)]⟩], 10⟩,
         ⟨[⟨MutationType.childList, [DomNode.other]⟩], 0⟩] =
      [[⟨MutationType.childList, [DomNode.other]⟩]] ∧
    observerCallbackRun
        [⟨[⟨MutationType.childList,
            [DomNode.iframe (FrameContent.accessible ⟨"", ""⟩)]⟩], 10⟩] =
      [[⟨MutationType.childList,
          [DomNode.iframe (FrameContent.accessible
            ⟨"grayscale(100%)", "filter 0.3s ease"⟩)]⟩]] := by
  constructor <;> rfl

/-- C7 (amended): while grayscale is enabled, the debounced mutation
handler processes only the delivered batches that survive the 50 ms
debounce (the last delivery always survives); in every surviving
`childList` batch each added iframe with accessible content document has
the grayscale(100%) filter applied to its document, while an iframe whose
`contentDocument` access throws raises only inside the per-node try,
which absorbs the error and leaves the node unchanged, and a null
`contentDocument` is likewise left alone.  Batches superseded within
50 ms are dropped, their iframes untouched. -/
theorem iframe_mutation_handling_debounced (deliveries : List Delivery)
    (ms : List MutationRec) (m : MutationRec) (d : IframeDoc)
    (hms : ms ∈ debouncedBatches 50 deliveries) (hm : m ∈ ms)
    (hty : m.type = MutationType.childList)
    (hd : DomNode.iframe (FrameContent.accessible d) ∈ m.addedNodes) :
    processMutations ms ∈ observerCallbackRun deliveries ∧
    DomNode.iframe (FrameContent.accessible
        ⟨"grayscale(100%)", "filter 0.3s ease"⟩) ∈
      (processMutationRec m).addedNodes ∧
    processMutationRec m ∈ processMutations ms ∧
    (∀ dflt : Delivery,
      (deliveries.getLastD dflt).batch ∈ debouncedBatches 50 deliveries) ∧
    applyGrayscaleToIframeDoc (DomNode.iframe FrameContent.throwing) =
      Except.error "cross-origin frame access" ∧
    processAddedIframes (DomNode.iframe FrameContent.throwing) =
      DomNode.iframe FrameContent.throwing ∧
    processAddedIframes (DomNode.iframe FrameContent.nullContent) =
      DomNode.iframe FrameContent.nullContent := by
  have hne : deliveries ≠ [] := by
    intro h
    rw [h] at hms
    exact absurd hms (by simp [debouncedBatches])
  refine ⟨List.mem_map_of_mem processMutations hms, ?_,
    List.mem_map_of_mem processMutationRec hm,
    fun dflt => debouncedBatches_last 50 deliveries hne dflt, rfl, rfl, rfl⟩
  simp only [processMutationRec, hty, if_true, ite_true, List.mem_map]
  exact ⟨DomNode.iframe (FrameContent.accessible d), hd, rfl⟩

/-- Witness for C7's amended theorem: two deliveries 60 ms apart both
survive the debounce and the first one's same-origin iframe is given the
grayscale filter. -/
theorem iframe_mutation_handling_debounced_witness :
    DomNode.iframe (FrameContent.accessible
        ⟨"grayscale(100%)", "filter 0.3s ease"⟩) ∈
      (processMutationRec ⟨MutationType.childList,
        [DomNode.iframe (FrameContent.accessible ⟨"a", "b"⟩)]⟩).addedNodes :=
  (iframe_mutation_handling_debounced
    [⟨[⟨MutationType.childList,
        [DomNode.iframe (FrameContent.accessible ⟨"a", "b"⟩)]⟩], 60⟩,
     ⟨[], 0⟩]
    [⟨MutationType.childList, [DomNode.iframe (FrameContent.accessible ⟨"a", "b"⟩)]⟩]
    ⟨MutationType.childList, [DomNode.iframe (FrameContent.accessible ⟨"a", "b"⟩)]⟩
    ⟨"a", "b"⟩ (by decide) (by decide) rfl (by decide)).2.1

/-- C1: with the stored global settings having `applyToAllTabs` disabled
(or no global settings stored at all), a toolbar-icon click on tab T
stores under `tab_T` the negation of T's currently stored grayscale
state, a missing entry being read as `isGrayscale = false`. -/
theorem click_toggle_stores_negated_tab_state (T : Nat) (env : Nat → ApplyEnv)
    (tabs : List (Option Nat)) (s : Storage) (h0 : T ≠ 0)
    (hglob : s.globalSettings = none ∨
      ∃ gs, s.globalSettings = some gs ∧ gs.applyToAllTabs = false) :
    (onActionClicked (some T) env tabs s).1.tabEntry T =
      some ⟨!((s.tabEntry T).getD ⟨false⟩).isGrayscale⟩ := by
  have hA : (s.globalSettings.getD ⟨false, some false⟩).applyToAllTabs = false := by
    rcases hglob with h | ⟨gs, h, h2⟩
    · simp [h]
    · simp [h, h2]
  simp only [onActionClicked, toggleGrayscaleForTab, h0, if_false, ite_false, hA,
    Bool.false_eq_true]
  exact applyGrayscaleToTab_tabEntry_self T
    (!((s.tabEntry T).getD ⟨false⟩).isGrayscale) (env T) 3 200 s h0 (by omega)

/-- Witness for C1: clicking tab 5 with empty storage stores
`tab_5 = { isGrayscale := true }`. -/
theorem click_toggle_stores_negated_tab_state_witness :
    (onActionClicked (some 5) (fun _ => ⟨fun _ => false, fun _ => false⟩) []
      ⟨none, fun _ => none⟩).1.tabEntry 5 = some ⟨true⟩ :=
  click_toggle_stores_negated_tab_state 5 (fun _ => ⟨fun _ => false, fun _ => false⟩)
    [] ⟨none, fun _ => none⟩ (by decide) (Or.inl rfl)

/-- C6: with `applyToAllTabs` disabled, toggling tab T leaves the stored
entry of every other tab and the `globalSettings` record unchanged. -/
theorem local_toggle_frame (T : Nat) (env : Nat → ApplyEnv)
    (tabs : List (Option Nat)) (s : Storage) (gs : GlobalSettings)
    (hg : s.globalSettings = some gs) (hA : gs.applyToAllTabs = false)
    (j : Nat) (hj : j ≠ T) :
    (toggleGrayscaleForTab T env tabs s).1.tabEntry j = s.tabEntry j ∧
    (toggleGrayscaleForTab T env tabs s).1.globalSettings = s.globalSettings := by
  by_cases h0 : T = 0
  · simp [toggleGrayscaleForTab, h0]
  · simp only [toggleGrayscaleForTab, h0, if_false, ite_false, hg, Option.getD_some,
      hA, Bool.false_eq_true]
    refine ⟨applyGrayscaleToTab_tabEntry_other T _ (env T) 3 200 s j hj, ?_⟩
    rw [applyGrayscaleToTab_globalSettings]
    exact hg

/-- Witness for C6: toggling tab 2 does not touch tab 9's entry or the
global settings. -/
theorem local_toggle_frame_witness :
    (toggleGrayscaleForTab 2 (fun _ => ⟨fun _ => true, fun _ => true⟩) []
      ⟨some ⟨false, none⟩, fun j => if j = 9 then some ⟨true⟩ else none⟩).1.tabEntry 9 =
      some ⟨true⟩ ∧
    (toggleGrayscaleForTab 2 (fun _ => ⟨fun _ => true, fun _ => true⟩) []
      ⟨some ⟨false, none⟩,
        fun j => if j = 9 then some ⟨true⟩ else none⟩).1.globalSettings =
      some ⟨false, none⟩ :=
  local_toggle_frame 2 (fun _ => ⟨fun _ => true, fun _ => true⟩) []
    ⟨some ⟨false, none⟩, fun j => if j = 9 then some ⟨true⟩ else none⟩
    ⟨false, none⟩ rfl rfl 9 (by decide)

/-- C2: with `applyToAllTabs` enabled, a toggle flips the global
grayscale state, persists it with `applyToAllTabs` still true, and then
applies the new state to every tab with a (non-falsy) id in the
enumeration, in enumeration order: the trace is the persisted global
settings followed by the per-tab application traces in list order. -/
theorem global_toggle_flips_and_applies_to_all (T : Nat) (env : Nat → ApplyEnv)
    (tabs : List (Option Nat)) (s : Storage) (gs : GlobalSettings) (h0 : T ≠ 0)
    (hg : s.globalSettings = some gs) (hA : gs.applyToAllTabs = true) :
    (toggleGrayscaleForTab T env tabs s).1.globalSettings =
      some ⟨true, some (!(gs.globalGrayscaleState.getD false))⟩ ∧
    (∀ j, j ≠ 0 → some j ∈ tabs →
      (toggleGrayscaleForTab T env tabs s).1.tabEntry j =
        some ⟨!(gs.globalGrayscaleState.getD false)⟩) ∧
    (toggleGrayscaleForTab T env tabs s).2 =
      Event.setGlobalSettings ⟨true, some (!(gs.globalGrayscaleState.getD false))⟩ ::
        tabs.flatMap (fun t =>
          match t with
          | none => []
          | some id =>
            if id = 0 then []
            else (applyGrayscaleToTab id (!(gs.globalGrayscaleState.getD false))
              (env id) 3 200 s).2.1) := by
  simp only [toggleGrayscaleForTab, h0, if_false, ite_false, hg, Option.getD_some,
    hA, if_true, ite_true]
  refine ⟨?_, ?_, ?_⟩
  · rw [allTabs_globalSettings]
  · intro j hj hmem
    exact allTabs_tabEntry_mem (!(gs.globalGrayscaleState.getD false)) env j hj
      tabs _ hmem
  · rw [allTabs_events (!(gs.globalGrayscaleState.getD false)) env s tabs]

/-- Witness for C2: with global state false and two open tabs, the toggle
persists global state true. -/
theorem global_toggle_flips_and_applies_to_all_witness :
    (toggleGrayscaleForTab 3 (fun _ => ⟨fun _ => true, fun _ => false⟩)
      [some 1, some 2]
      ⟨some ⟨true, some false⟩, fun _ => none⟩).1.globalSettings =
      some ⟨true, some true⟩ :=
  (global_toggle_flips_and_applies_to_all 3 (fun _ => ⟨fun _ => true, fun _ => false⟩)
    [some 1, some 2] ⟨some ⟨true, some false⟩, fun _ => none⟩ ⟨true, some false⟩
    (by decide) rfl rfl).1

/-- C3: an `updateGlobalSetting` message with `applyToAllTabs = true`
sets the global grayscale state to the active tab's stored state (false
when absent or undeterminable), persists it, and applies it to every
enumerated tab with a non-falsy id; with `applyToAllTabs = false` it
persists only the disabled flag and changes no tab entry, producing no
per-tab action at all. -/
theorem update_global_setting_spec (b : Bool) (activeTab : Option Nat)
    (env : Nat → ApplyEnv) (tabs : List (Option Nat)) (s : Storage) :
    (b = true →
      (handleUpdateGlobalSetting b activeTab env tabs s).1.globalSettings =
        some ⟨true, some (activeTabStateRead activeTab s)⟩ ∧
      ∀ j, j ≠ 0 → some j ∈ tabs →
        (handleUpdateGlobalSetting b activeTab env tabs s).1.tabEntry j =
          some ⟨activeTabStateRead activeTab s⟩) ∧
    (b = false →
      (handleUpdateGlobalSetting b activeTab env tabs s).1.globalSettings =
        some ⟨false, none⟩ ∧
      (∀ j, (handleUpdateGlobalSetting b activeTab env tabs s).1.tabEntry j =
        s.tabEntry j) ∧
      (handleUpdateGlobalSetting b activeTab env tabs s).2 =
        [Event.setGlobalSettings ⟨false, none⟩]) := by
  constructor
  · intro hb
    subst hb
    simp only [handleUpdateGlobalSetting, if_true, ite_true]
    constructor
    · rw [allTabs_globalSettings]
    · intro j hj hmem
      exact allTabs_tabEntry_mem (activeTabStateRead activeTab s) env j hj tabs _ hmem
  · intro hb
    subst hb
    exact ⟨rfl, fun j => rfl, rfl⟩

/-- Witness for C3: enabling with active tab 2 stored grayscale makes the
persisted global state true. -/
theorem update_global_setting_spec_witness :
    (handleUpdateGlobalSetting true (some 2) (fun _ => ⟨fun _ => true, fun _ => true⟩)
      [some 1] ⟨none, fun j => if j = 2 then some ⟨true⟩ else none⟩).1.globalSettings =
      some ⟨true, some true⟩ :=
  ((update_global_setting_spec true (some 2) (fun _ => ⟨fun _ => true, fun _ => true⟩)
    [some 1] ⟨none, fun j => if j = 2 then some ⟨true⟩ else none⟩).1 rfl).1

/-- C4: for every tab id and target state, `applyGrayscaleToTab` performs
at most `retries` attempts, waits exactly `delay` ms and only between
consecutive attempts (one wait fewer than attempts), stops right after
the first attempt in which the message or the fallback injection
succeeds, and when every attempt fails it has used exactly `retries`
attempts and returns normally reporting no success. -/
theorem apply_grayscale_retry_bounds (tabId : Nat) (isG : Bool) (env : ApplyEnv)
    (retries delay : Nat) (s : Storage) (h0 : tabId ≠ 0) (hr : 1 ≤ retries) :
    attemptCount (applyGrayscaleToTab tabId isG env retries delay s).2.1 ≤ retries ∧
    waitCount (applyGrayscaleToTab tabId isG env retries delay s).2.1 + 1 =
      attemptCount (applyGrayscaleToTab tabId isG env retries delay s).2.1 ∧
    (∀ ms, Event.wait ms ∈ (applyGrayscaleToTab tabId isG env retries delay s).2.1 →
      ms = delay) ∧
    ((applyGrayscaleToTab tabId isG env retries delay s).2.2 = true →
      attemptSucceeds env
        (attemptCount (applyGrayscaleToTab tabId isG env retries delay s).2.1) =
        true ∧
      ∀ k, 1 ≤ k →
        k < attemptCount (applyGrayscaleToTab tabId isG env retries delay s).2.1 →
        attemptSucceeds env k = false) ∧
    ((applyGrayscaleToTab tabId isG env retries delay s).2.2 = false →
      attemptCount (applyGrayscaleToTab tabId isG env retries delay s).2.1 =
        retries ∧
      ∀ k, 1 ≤ k → k ≤ retries → attemptSucceeds env k = false) := by
  have hunfold : applyGrayscaleToTab tabId isG env retries delay s =
      applyLoop tabId isG env delay 1 retries s := by
    simp [applyGrayscaleToTab, h0]
  rw [hunfold]
  obtain ⟨t1, t2, t3, t4, t5, t6⟩ := applyLoop_trace tabId isG env delay retries hr 1 s
  refine ⟨t2, t3, t4, ?_, ?_⟩
  · intro hok
    obtain ⟨hs1, hs2⟩ := t5 hok
    have harith : 1 + attemptCount (applyLoop tabId isG env delay 1 retries s).2.1 - 1 =
        attemptCount (applyLoop tabId isG env delay 1 retries s).2.1 := by omega
    rw [harith] at hs1 hs2
    exact ⟨hs1, fun k hk1 hk2 => hs2 k hk1 hk2⟩
  · intro hfail
    obtain ⟨hs1, hs2⟩ := t6 hfail
    exact ⟨hs1, fun k hk1 hk2 => hs2 k hk1 (by omega)⟩

/-- Witness for C4: with the message always failing and the injection
succeeding on attempt 2, exactly two attempts and one 200 ms wait occur. -/
theorem apply_grayscale_retry_bounds_witness :
    attemptCount (applyGrayscaleToTab 7 true
      ⟨fun _ => false, fun a => a == 2⟩ 3 200 ⟨none, fun _ => none⟩).2.1 ≤ 3 :=
  (apply_grayscale_retry_bounds 7 true ⟨fun _ => false, fun a => a == 2⟩ 3 200
    ⟨none, fun _ => none⟩ (by decide) (by decide)).1

end Monochrome
